import Mathlib

/-!
Verification of the request/response correlation engine of
`src/assets/js/nodeca-io.js` (the `nodeca.io` realtime client).

The development shallowly embeds the parts of the module that the
correlation engine uses:

* the `io` error-code fields (`io.ENOCONN`, `io.ETIMEOUT`, `io.EWRONGVER`;
  note `io.ECONNGONE` is read by `handle_transport_down` but never
  assigned, so reading it yields `undefined`, modelled as `none`);
* the `ioerr(code, message)` error constructor;
* the module-level `connected` flag, identifier counter `api3.last_msg_id`
  and registry `api3.callbacks` (only its key set matters globally; the
  behaviour of one stored handler is modelled per call below);
* the argument shuffling at the top of `io.apiTree`
  (`if (_.isFunction(options)) { callback = options; options = {}; }`,
  `options = options || {}`, `callback = callback || $.noop`);
* the per-call closures of `io.apiTree`: `stop_timer`, `handle_error`,
  `handle_transport_down`, the response handler stored in
  `api3.callbacks[id]`, the 30-second `setTimeout` job, and the
  `.fail(handle_error).done(stop_timer)` hooks on the publish deferred;
* the response-channel subscription installed by `io.init`, which looks
  up `api3.callbacks[data.id]`, returns when absent, and otherwise
  deletes the entry before invoking it with `data.msg`.

Channel names (`api3.req_channel`, `api3.res_channel`), the generic
`on`/`off` event multimap and the underlying Faye client are outside the
claims and not embedded; the `emit` of the `api3:version-mismatch` event
is recorded as an appended notification record.
-/

namespace NodecaIO

/-- A JavaScript value occupying the `options` or `callback` positional
slot of `io.apiTree`: `undefined` (argument omitted), the jQuery no-op
function `$.noop`, a caller-supplied function, or a plain object (we keep
only its key list, since the code never reads any option key). -/
inductive JsArg where
  | undef
  | noop
  | func (id : Nat)
  | obj (keys : List String)
deriving DecidableEq

/-- Model of underscore.js `_.isFunction`. -/
def isFunction : JsArg → Bool
  | .noop => true
  | .func _ => true
  | _ => false

/-- JavaScript truthiness for the values `JsArg` can denote: `undefined`
is falsy, functions and objects (empty ones included) are truthy. -/
def truthy : JsArg → Bool
  | .undef => false
  | _ => true

/-- The argument normalisation at the top of `io.apiTree`: when the third
positional argument is a function it becomes the callback and `options`
is set to the empty object literal; then `options = options \x7c\x7c {}` and
`callback = callback \x7c\x7c $.noop`. -/
def normalizeArgs (options callback : JsArg) : JsArg × JsArg :=
  let p := if isFunction options then (JsArg.obj [], options) else (options, callback)
  let opts := if truthy p.1 then p.1 else JsArg.obj []
  let cb := if truthy p.2 then p.2 else JsArg.noop
  (opts, cb)

/-- Reading field `name` of the exported `io` object among its error-code
fields. The source assigns exactly three: `io.ENOCONN = 'IO_ENOCONN'`,
`io.ETIMEOUT = 'IO_ETIMEOUT'`, `io.EWRONGVER = 'IO_EWRONGVER'`. Any
other field access (in particular `io.ECONNGONE`, used by
`handle_transport_down`) yields `undefined`, i.e. `none`. -/
def ioErrorConst : String → Option String
  | "ENOCONN" => some "IO_ENOCONN"
  | "ETIMEOUT" => some "IO_ETIMEOUT"
  | "EWRONGVER" => some "IO_EWRONGVER"
  | _ => none

/-- An error value delivered to a caller callback: either an object built
by `ioerr(code, message)` (whose `code` property is the possibly
undefined value that was read off `io`), or a raw server-side error
forwarded from a response (`msg.err`) or from the publish errback. -/
inductive ErrVal where
  | ioe (code : Option String) (message : String)
  | server (v : Nat)
deriving DecidableEq

/-- The error produced by `ioerr(io.ENOCONN, ...)` on the no-connection
guard path of `io.apiTree`. -/
def enoconnErr : ErrVal :=
  ErrVal.ioe (ioErrorConst "ENOCONN") "Cannot connect to server (RT)."

/-- The error produced by `handle_transport_down` via
`ioerr(io.ECONNGONE, ...)`; its code is `none` because `io.ECONNGONE`
is never assigned. -/
def connGoneErr : ErrVal :=
  ErrVal.ioe (ioErrorConst "ECONNGONE") "Server gone. (RT)"

/-- The error produced by the 30-second timeout job,
`ioerr(io.ETIMEOUT, 'Timeout ' + name + ' execution.')`. -/
def timeoutErr (name : String) : ErrVal :=
  ErrVal.ioe (ioErrorConst "ETIMEOUT") ("Timeout " ++ name ++ " execution.")

/-- The error produced by the response handler on a version mismatch,
`ioerr(io.EWRONGVER, ...)`. -/
def wrongVerErr : ErrVal :=
  ErrVal.ioe (ioErrorConst "EWRONGVER") "Client version does not match server."

/-- The `msg` part of an inbound response envelope:
`{ version, err, result }`. Server payloads are abstracted to `Nat`;
`none` stands for an absent (`undefined`/`null`) field. -/
structure RespMsg where
  version : String
  err : Option Nat
  result : Option Nat
deriving DecidableEq

/-- One invocation of the caller callback: the two positional arguments
`(error, result)`. `callback(err)` passes `result = none`. -/
abbrev Outcome : Type := Option ErrVal × Option Nat

/-! ## Global module state: `connected`, `api3.last_msg_id`, `api3.callbacks` -/

/-- The module-level mutable state read and written by `io.apiTree` and
the transport handlers: the `connected` flag, the key set of
`api3.callbacks`, and the counter `api3.last_msg_id`. -/
structure Api3State where
  connected : Bool
  callbacks : List Nat
  last_msg_id : Nat
deriving DecidableEq

/-- Module state right after the IIFE runs: `connected = false`,
`api3.callbacks = {}`, `api3.last_msg_id = 0`. -/
def initState : Api3State :=
  { connected := false, callbacks := [], last_msg_id := 0 }

/-- The handler `io.init` binds to `transport:up`:
`function () { connected = true; }`. -/
def onTransportUp (s : Api3State) : Api3State :=
  { s with connected := true }

/-- The handler `io.init` binds to `transport:down`:
`function () { connected = false; }`. -/
def onTransportDown (s : Api3State) : Api3State :=
  { s with connected := false }

/-- Everything observable about one invocation of `io.apiTree` at the
module level: the state left behind, the identifier taken from
`api3.last_msg_id++`, whether the call got past the connection guard
(listener bound, handler registered, timer armed, request published),
which callback value was invoked synchronously with which error on the
guard path, and the normalised `options`/`callback` values. -/
structure ApiTreeRes where
  state : Api3State
  id : Nat
  issued : Bool
  syncInvoke : Option (JsArg × ErrVal)
  usedOptions : JsArg
  usedCallback : JsArg
deriving DecidableEq

/-- The module-level effect of `io.apiTree(name, params, options, callback)`:
`id = api3.last_msg_id++` runs first (in the `var` declaration line), the
arguments are normalised, and then `if (!connected)` either invokes the
callback synchronously with an `ENOCONN` error and returns, or registers
`api3.callbacks[id]` and proceeds to issue the call. -/
def apiTree (s : Api3State) (options callback : JsArg) : ApiTreeRes :=
  let id := s.last_msg_id
  let s1 : Api3State := { s with last_msg_id := id + 1 }
  let norm := normalizeArgs options callback
  if !s1.connected then
    { state := s1, id := id, issued := false,
      syncInvoke := some (norm.2, enoconnErr),
      usedOptions := norm.1, usedCallback := norm.2 }
  else
    { state := { s1 with callbacks := s1.callbacks ++ [id] }, id := id,
      issued := true, syncInvoke := none,
      usedOptions := norm.1, usedCallback := norm.2 }

/-! ## Per-call machine: the closures created by one issued `io.apiTree` call

Once a call passes the connection guard, its fate is decided by the
closures `stop_timer`, `handle_error`, `handle_transport_down`, the
response handler stored in `api3.callbacks[id]`, the timeout job, and the
publish deferred hooks. Their shared mutable environment is the `timeout`
variable, the `transport:down` binding of `handle_transport_down`, and the
registry entry for this id; we also record every caller-callback
invocation and every emitted `api3:version-mismatch` notification. -/

/-- The mutable environment of one issued call: whether the `setTimeout`
handle is still armed (not cleared and not yet fired), whether
`handle_transport_down` is still bound to `transport:down`, whether
`api3.callbacks[id]` still holds the response handler, the list of
caller-callback invocations so far, and the list of emitted
`api3:version-mismatch` notifications as `(client, server)` pairs. -/
structure CallState where
  timerActive : Bool
  listenerBound : Bool
  registered : Bool
  cbCalls : List Outcome
  mismatchEvents : List (String × String)
deriving DecidableEq

/-- State of a call right after `io.apiTree` issues it: listener bound,
handler registered, timer armed, no callback invocation yet. -/
def initCall : CallState :=
  { timerActive := true, listenerBound := true, registered := true,
    cbCalls := [], mismatchEvents := [] }

/-- The `stop_timer` closure: `clearTimeout(timeout); timeout = null;`. -/
def stop_timer (s : CallState) : CallState :=
  { s with timerActive := false }

/-- The `handle_error` closure: `stop_timer(); delete api3.callbacks[id];
callback(err);`. Note it does NOT unbind `handle_transport_down` from
`transport:down`. -/
def handle_error (e : ErrVal) (s : CallState) : CallState :=
  let s := stop_timer s
  let s := { s with registered := false }
  { s with cbCalls := s.cbCalls ++ [(some e, none)] }

/-- The `handle_transport_down` closure:
`handle_error(ioerr(io.ECONNGONE, 'Server gone. (RT)'));`. -/
def handle_transport_down (s : CallState) : CallState :=
  handle_error connGoneErr s

/-- The response handler stored in `api3.callbacks[id]`, invoked by the
dispatcher with `data.msg`: stops the timer, unbinds
`handle_transport_down`, and either emits `api3:version-mismatch` and
invokes the callback with an `EWRONGVER` error (version differs from
`nodeca.runtime.version`, the parameter `cv`), or invokes the callback
with `(msg.err, msg.result)`. -/
def response_handler (cv : String) (msg : RespMsg) (s : CallState) : CallState :=
  let s := stop_timer s
  let s := { s with listenerBound := false }
  if msg.version ≠ cv then
    let s := { s with mismatchEvents := s.mismatchEvents ++ [(cv, msg.version)] }
    { s with cbCalls := s.cbCalls ++ [(some wrongVerErr, none)] }
  else
    { s with cbCalls := s.cbCalls ++ [(msg.err.map ErrVal.server, msg.result)] }

/-- The events that can reach one issued call: the 30-second deadline of
its `setTimeout` passing, a `transport:down` signal, the publish deferred
settling with failure or success, and an inbound response envelope
carrying the call identifier arriving at the dispatcher. -/
inductive Ev where
  | timeoutFires
  | transportDown
  | publishFail (e : Nat)
  | publishDone
  | response (msg : RespMsg)
deriving DecidableEq

/-- One event hitting an issued call, exactly as the source wires it:
the timeout job runs only if the handle was not cleared
(`clearTimeout` semantics); a `transport:down` signal reaches
`handle_transport_down` only while it is bound; the publish errback is
`handle_error`, the publish callback is `stop_timer`; an inbound response
for this id is handled by the `io.init` subscription, which drops it when
`api3.callbacks[id]` is gone and otherwise deletes the entry before
invoking the stored handler. `cv` is the client version
`nodeca.runtime.version`, `name` the method name (used in the timeout
error message). -/
def step (cv name : String) (s : CallState) : Ev → CallState
  | .timeoutFires =>
      if s.timerActive then handle_error (timeoutErr name) s else s
  | .transportDown =>
      if s.listenerBound then handle_transport_down s else s
  | .publishFail e => handle_error (ErrVal.server e) s
  | .publishDone => stop_timer s
  | .response msg =>
      if s.registered then response_handler cv msg { s with registered := false } else s

/-- Run a sequence of events against a freshly issued call. -/
def runCall (cv name : String) (evs : List Ev) : CallState :=
  evs.foldl (step cv name) initCall

/-! ## Response dispatcher over the registry (`io.init` subscription)

For claims about unknown or repeated identifiers we also model the
registry with several entries, each stored handler abstracted to a token
(`Nat`): the subscription body is
`var callback = api3.callbacks[data.id]; if (!callback) return;
delete api3.callbacks[data.id]; callback(data.msg);`. -/

/-- An inbound response envelope `{ id, msg }` on the response channel. -/
structure Envelope where
  id : Nat
  msg : RespMsg
deriving DecidableEq

/-- Property lookup `api3.callbacks[id]` on the registry, represented as
an association list with unique keys. -/
def lookupCb : List (Nat × Nat) → Nat → Option Nat
  | [], _ => none
  | (k, h) :: rest, id => if k = id then some h else lookupCb rest id

/-- `delete api3.callbacks[id]`. -/
def removeCb (reg : List (Nat × Nat)) (id : Nat) : List (Nat × Nat) :=
  reg.filter (fun p => p.1 != id)

/-- The `io.init` response-channel subscription body applied to one
inbound envelope: returns the registry it leaves behind and, when an
entry matched, the pair (handler token, message) it invokes; `none` means
the message was dropped with no handler invocation. The entry is deleted
before the handler is invoked. -/
def dispatch (reg : List (Nat × Nat)) (env : Envelope) :
    List (Nat × Nat) × Option (Nat × RespMsg) :=
  match lookupCb reg env.id with
  | none => (reg, none)
  | some h => (removeCb reg env.id, some (h, env.msg))

/-! ## Identifier sequences -/

/-- The arithmetic sequence `b, b+1, ..., b+n-1`: the identifiers a
counter starting at `b` hands out over `n` allocations. -/
def idsFrom : Nat → Nat → List Nat
  | _, 0 => []
  | b, n + 1 => b :: idsFrom (b + 1) n

/-- The identifiers allocated by `n` successive `io.apiTree` calls
starting from module state `s` (arguments are irrelevant to the counter;
fixed ones are used). -/
def issueIds : Api3State → Nat → List Nat
  | _, 0 => []
  | s, n + 1 =>
      (apiTree s (JsArg.obj []) (JsArg.func 0)).id
        :: issueIds (apiTree s (JsArg.obj []) (JsArg.func 0)).state n

/-! ## Helper lemmas -/

/-- Every `io.apiTree` call takes its identifier from the counter. -/
theorem apiTree_id (s : Api3State) (o c : JsArg) :
    (apiTree s o c).id = s.last_msg_id := by
  cases hc : s.connected <;> simp [apiTree, hc]

/-- Every `io.apiTree` call increments the counter by one (the `++` in
the `var` line runs before the connection guard). -/
theorem apiTree_last (s : Api3State) (o c : JsArg) :
    (apiTree s o c).state.last_msg_id = s.last_msg_id + 1 := by
  cases hc : s.connected <;> simp [apiTree, hc]

/-- `io.apiTree` never writes the `connected` flag. -/
theorem apiTree_connected (s : Api3State) (o c : JsArg) :
    (apiTree s o c).state.connected = s.connected := by
  cases hc : s.connected <;> simp [apiTree, hc]

/-- Sequential calls allocate exactly the arithmetic sequence starting at
the current counter value. -/
theorem issueIds_eq (n : Nat) : ∀ s : Api3State,
    issueIds s n = idsFrom s.last_msg_id n := by
  induction n with
  | zero => intro s; rfl
  | succ n ih =>
      intro s
      rw [issueIds, idsFrom, ih, apiTree_id, apiTree_last]

/-- Members of `idsFrom b n` are at least `b`. -/
theorem idsFrom_le_of_mem : ∀ n b x, x ∈ idsFrom b n → b ≤ x := by
  intro n
  induction n with
  | zero =>
      intro b x hx
      simp [idsFrom] at hx
  | succ n ih =>
      intro b x hx
      rw [idsFrom, List.mem_cons] at hx
      rcases hx with rfl | hx
      · exact Nat.le_refl x
      · exact Nat.le_trans (Nat.le_succ b) (ih (b + 1) x hx)

/-- `idsFrom b n` is strictly increasing. -/
theorem idsFrom_pairwise (n b : Nat) : (idsFrom b n).Pairwise (· < ·) := by
  induction n generalizing b with
  | zero => simp [idsFrom]
  | succ n ih =>
      rw [idsFrom, List.pairwise_cons]
      exact ⟨fun x hx => Nat.lt_of_lt_of_le (Nat.lt_succ_self b)
               (idsFrom_le_of_mem n (b + 1) x hx),
             ih (b + 1)⟩

/-- Looking up the target identifier in the registry the dispatcher
leaves behind after deleting it finds nothing. -/
theorem lookupCb_removeCb (reg : List (Nat × Nat)) (id : Nat) :
    lookupCb (removeCb reg id) id = none := by
  induction reg with
  | nil => rfl
  | cons p rest ih =>
      by_cases hk : p.1 = id
      · simpa [removeCb, List.filter_cons, hk] using ih
      · simpa [removeCb, List.filter_cons, hk, lookupCb] using ih

/-! ## Claims -/

/-- C7: request identifiers are assigned by the single counter
`api3.last_msg_id`, starting at 0 and incremented by one on each
`io.apiTree` call; `n` successive calls allocate the arithmetic sequence
from the current counter value, which is strictly increasing and free of
repetitions, and from the fresh module state the sequence starts at 0. -/
theorem claim_C7_identifiers (s : Api3State) (n : Nat) (o c : JsArg) :
    issueIds s n = idsFrom s.last_msg_id n ∧
    (issueIds s n).Pairwise (· < ·) ∧
    (issueIds s n).Nodup ∧
    issueIds initState n = idsFrom 0 n ∧
    (apiTree s o c).id = s.last_msg_id ∧
    (apiTree s o c).state.last_msg_id = s.last_msg_id + 1 := by
  refine ⟨issueIds_eq n s, ?_, ?_, ?_, apiTree_id s o c, apiTree_last s o c⟩
  · rw [issueIds_eq]
    exact idsFrom_pairwise n s.last_msg_id
  · rw [issueIds_eq]
    exact (idsFrom_pairwise n s.last_msg_id).imp Nat.ne_of_lt
  · rw [issueIds_eq]
    rfl

/-- C9: the `connected` flag starts as `false`; the handler bound to
`transport:up` sets it to `true` and the one bound to `transport:down`
sets it to `false`, neither touching the registry or the counter; and
`io.apiTree` reads the flag but never writes it. -/
theorem claim_C9_connected_flag (s : Api3State) (o c : JsArg) :
    initState.connected = false ∧
    (onTransportUp s).connected = true ∧
    (onTransportDown s).connected = false ∧
    (onTransportUp s).callbacks = s.callbacks ∧
    (onTransportUp s).last_msg_id = s.last_msg_id ∧
    (onTransportDown s).callbacks = s.callbacks ∧
    (onTransportDown s).last_msg_id = s.last_msg_id ∧
    (apiTree s o c).state.connected = s.connected :=
  ⟨rfl, rfl, rfl, rfl, rfl, rfl, rfl, apiTree_connected s o c⟩

/-- C10: when the third positional argument of `io.apiTree` is a
function it becomes the callback and `options` defaults to the empty
object (whatever occupied the callback slot is discarded, as the source
overwrites it); an omitted callback defaults to the no-op; and in each
case the whole call behaves identically to the explicit form. -/
theorem claim_C10_arguments (s : Api3State) (f : Nat) (c : JsArg) (ks : List String) :
    normalizeArgs (JsArg.func f) c = (JsArg.obj [], JsArg.func f) ∧
    apiTree s (JsArg.func f) c = apiTree s (JsArg.obj []) (JsArg.func f) ∧
    normalizeArgs (JsArg.obj ks) JsArg.undef = (JsArg.obj ks, JsArg.noop) ∧
    apiTree s (JsArg.obj ks) JsArg.undef = apiTree s (JsArg.obj ks) JsArg.noop ∧
    apiTree s JsArg.undef JsArg.undef = apiTree s (JsArg.obj []) JsArg.noop :=
  ⟨rfl, rfl, rfl, rfl, rfl⟩

/-- C4 counterexample: a call issued while `connected = false` from a
module state whose counter reads 5 does invoke the callback synchronously
with the `ENOCONN` error and leaves the registry untouched, but it leaves
the counter at 6, not 5: `id = api3.last_msg_id++` runs in the `var`
declaration, before the connection guard, so an identifier IS allocated
and the counter is not left unchanged as the claim states. -/
theorem claim_C4_counterexample :
    ((apiTree { connected := false, callbacks := [], last_msg_id := 5 }
        (JsArg.obj []) (JsArg.func 1)).syncInvoke
      = some (JsArg.func 1, enoconnErr)) ∧
    ((apiTree { connected := false, callbacks := [], last_msg_id := 5 }
        (JsArg.obj []) (JsArg.func 1)).state.callbacks = []) ∧
    ((apiTree { connected := false, callbacks := [], last_msg_id := 5 }
        (JsArg.obj []) (JsArg.func 1)).state.last_msg_id = 6) ∧
    (6 : Nat) ≠ 5 := by
  refine ⟨rfl, rfl, rfl, by decide⟩

/-- C4 amended: a call issued while `connected = false` invokes the
(normalised) callback synchronously with an `ENOCONN` error, is never
issued, and creates no registry entry — but the identifier counter is
still incremented by one, because the allocation precedes the guard. -/
theorem claim_C4_amended (s : Api3State) (o c : JsArg) (h : s.connected = false) :
    (apiTree s o c).syncInvoke = some ((normalizeArgs o c).2, enoconnErr) ∧
    (apiTree s o c).issued = false ∧
    (apiTree s o c).state.callbacks = s.callbacks ∧
    (apiTree s o c).state.last_msg_id = s.last_msg_id + 1 := by
  simp [apiTree, h]

/-- Witness for the amended C4 at the fresh module state. -/
theorem claim_C4_witness :
    (apiTree initState JsArg.undef JsArg.undef).syncInvoke
      = some ((normalizeArgs JsArg.undef JsArg.undef).2, enoconnErr) ∧
    (apiTree initState JsArg.undef JsArg.undef).issued = false ∧
    (apiTree initState JsArg.undef JsArg.undef).state.callbacks = initState.callbacks ∧
    (apiTree initState JsArg.undef JsArg.undef).state.last_msg_id
      = initState.last_msg_id + 1 :=
  claim_C4_amended initState JsArg.undef JsArg.undef rfl

/-- C1 counterexample: a call is issued while connected, the publish is
acknowledged (`.done(stop_timer)` runs), and the 30-second deadline then
passes with no response — yet the caller callback is never invoked at
all, in particular not with a `TIMEOUT` error: the acknowledgment cleared
the timer, so the claim that the 30-second timer keeps running after a
publish acknowledgment is false on the code. -/
theorem claim_C1_counterexample :
    (runCall "A" "m" [Ev.publishDone, Ev.timeoutFires]).cbCalls = [] ∧
    (runCall "A" "m" [Ev.publishDone, Ev.timeoutFires]).timerActive = false := by
  exact ⟨rfl, rfl⟩

/-- C1 amended: the timeout job fires the callback with an `ETIMEOUT`
error only while the timer is still armed; once `stop_timer` has run —
which the publish acknowledgment triggers via `.done(stop_timer)` — the
deadline passing is a no-op, so a publish acknowledgment DOES stop the
30-second timer and the `TIMEOUT` error is delivered exactly when neither
acknowledgment, response, nor error settlement preceded the deadline. -/
theorem claim_C1_amended (cv name : String) (s : CallState) (h : s.timerActive = true) :
    (step cv name s Ev.timeoutFires).cbCalls
      = s.cbCalls ++ [(some (timeoutErr name), none)] ∧
    (step cv name s Ev.timeoutFires).timerActive = false ∧
    (step cv name s Ev.timeoutFires).registered = false ∧
    (stop_timer s).timerActive = false ∧
    step cv name (stop_timer s) Ev.timeoutFires = stop_timer s := by
  simp [step, h, handle_error, stop_timer]

/-- Witness for the amended C1 at the freshly issued call state. -/
theorem claim_C1_witness :
    (step "A" "m" initCall Ev.timeoutFires).cbCalls
      = initCall.cbCalls ++ [(some (timeoutErr "m"), none)] ∧
    (step "A" "m" initCall Ev.timeoutFires).timerActive = false ∧
    (step "A" "m" initCall Ev.timeoutFires).registered = false ∧
    (stop_timer initCall).timerActive = false ∧
    step "A" "m" (stop_timer initCall) Ev.timeoutFires = stop_timer initCall :=
  claim_C1_amended "A" "m" initCall rfl

/-- C2 (code bug): the timeout path settles the call — callback invoked
once with the `ETIMEOUT` error, timer cleared, registry entry removed —
but leaves the transport-down listener bound (`handle_error` never calls
`bayeux.unbind`), so the teardown is not performed as a unit: a later
`transport:down` signal reaches `handle_transport_down` and invokes the
callback a second time. The publish-failure and transport-loss paths
leave the listener bound in the same way; only the response path unbinds. -/
theorem claim_C2_code_bug :
    (runCall "A" "m" [Ev.timeoutFires]).cbCalls = [(some (timeoutErr "m"), none)] ∧
    (runCall "A" "m" [Ev.timeoutFires]).timerActive = false ∧
    (runCall "A" "m" [Ev.timeoutFires]).registered = false ∧
    (runCall "A" "m" [Ev.timeoutFires]).listenerBound = true ∧
    (runCall "A" "m" [Ev.timeoutFires, Ev.transportDown]).cbCalls
      = [(some (timeoutErr "m"), none), (some connGoneErr, none)] ∧
    (runCall "A" "p" [Ev.publishFail 3]).listenerBound = true ∧
    (runCall "A" "p" [Ev.transportDown]).listenerBound = true := by
  refine ⟨rfl, rfl, rfl, rfl, rfl, rfl, rfl⟩

/-- C3 (code bug): the caller callback can be invoked twice. After the
timeout settles the call, the still-bound transport-down listener fires
on a later `transport:down` and invokes the callback again; likewise two
`transport:down` signals (link down, up, down again) each invoke it. -/
theorem claim_C3_code_bug :
    (runCall "A" "m" [Ev.timeoutFires, Ev.transportDown]).cbCalls.length = 2 ∧
    (runCall "A" "m" [Ev.transportDown, Ev.transportDown]).cbCalls.length = 2 ∧
    (runCall "A" "m" [Ev.publishFail 3, Ev.transportDown]).cbCalls.length = 2 := by
  refine ⟨rfl, rfl, rfl⟩

/-- C5: a response for a still-registered call whose embedded version
differs from the client version settles the call with the `EWRONGVER`
error and no result, emits exactly one `api3:version-mismatch`
notification carrying `(client, server)`, removes the registry entry,
stops the timer and unbinds the transport-down listener; the result of
the response is not forwarded. -/
theorem claim_C5_version_mismatch (cv name : String) (s : CallState) (msg : RespMsg)
    (hreg : s.registered = true) (hver : msg.version ≠ cv) :
    (step cv name s (Ev.response msg)).cbCalls
      = s.cbCalls ++ [(some wrongVerErr, none)] ∧
    (step cv name s (Ev.response msg)).mismatchEvents
      = s.mismatchEvents ++ [(cv, msg.version)] ∧
    (step cv name s (Ev.response msg)).registered = false ∧
    (step cv name s (Ev.response msg)).timerActive = false ∧
    (step cv name s (Ev.response msg)).listenerBound = false := by
  simp [step, hreg, response_handler, stop_timer, hver]

/-- Witness for C5: client version `A`, response version `B`, carrying a
result that is not forwarded. -/
theorem claim_C5_witness :
    (step "A" "m" initCall (Ev.response ⟨"B", none, some 3⟩)).cbCalls
      = initCall.cbCalls ++ [(some wrongVerErr, none)] ∧
    (step "A" "m" initCall (Ev.response ⟨"B", none, some 3⟩)).mismatchEvents
      = initCall.mismatchEvents ++ [("A", "B")] ∧
    (step "A" "m" initCall (Ev.response ⟨"B", none, some 3⟩)).registered = false ∧
    (step "A" "m" initCall (Ev.response ⟨"B", none, some 3⟩)).timerActive = false ∧
    (step "A" "m" initCall (Ev.response ⟨"B", none, some 3⟩)).listenerBound = false :=
  claim_C5_version_mismatch "A" "m" initCall ⟨"B", none, some 3⟩ rfl (by decide)

/-- C8: the error delivered on transport loss is built by
`ioerr(io.ECONNGONE, ...)`, and since the field `ECONNGONE` is never
assigned on `io`, its `code` property is the undefined value (`none`) —
unlike `ENOCONN`, `ETIMEOUT` and `EWRONGVER`, which are defined
constants, so the connection-gone error kind carries no defined code. -/
theorem claim_C8_connection_gone (cv name : String) (s : CallState)
    (h : s.listenerBound = true) :
    (step cv name s Ev.transportDown).cbCalls
      = s.cbCalls ++ [(some (ErrVal.ioe none "Server gone. (RT)"), none)] ∧
    connGoneErr = ErrVal.ioe none "Server gone. (RT)" ∧
    ioErrorConst "ECONNGONE" = none ∧
    ioErrorConst "ENOCONN" = some "IO_ENOCONN" ∧
    ioErrorConst "ETIMEOUT" = some "IO_ETIMEOUT" ∧
    ioErrorConst "EWRONGVER" = some "IO_EWRONGVER" := by
  refine ⟨?_, rfl, rfl, rfl, rfl, rfl⟩
  simp [step, h, handle_transport_down, handle_error, stop_timer, connGoneErr,
        ioErrorConst]

/-- Witness for C8 at the freshly issued call state. -/
theorem claim_C8_witness :
    (step "A" "m" initCall Ev.transportDown).cbCalls
      = initCall.cbCalls ++ [(some (ErrVal.ioe none "Server gone. (RT)"), none)] ∧
    connGoneErr = ErrVal.ioe none "Server gone. (RT)" ∧
    ioErrorConst "ECONNGONE" = none ∧
    ioErrorConst "ENOCONN" = some "IO_ENOCONN" ∧
    ioErrorConst "ETIMEOUT" = some "IO_ETIMEOUT" ∧
    ioErrorConst "EWRONGVER" = some "IO_EWRONGVER" :=
  claim_C8_connection_gone "A" "m" initCall rfl

/-- C6: the dispatcher looks the envelope identifier up in the registry;
with no entry the message is dropped and the registry is untouched; with
an entry the stored handler is invoked with the message AFTER the entry
has been deleted, so the identifier no longer resolves and a second
envelope with the same identifier invokes no handler. -/
theorem claim_C6_dispatch (reg : List (Nat × Nat)) (env : Envelope) :
    (lookupCb reg env.id = none → dispatch reg env = (reg, none)) ∧
    (∀ h, lookupCb reg env.id = some h →
       (dispatch reg env).2 = some (h, env.msg) ∧
       lookupCb (dispatch reg env).1 env.id = none ∧
       ∀ env2 : Envelope, env2.id = env.id →
         (dispatch (dispatch reg env).1 env2).2 = none) := by
  constructor
  · intro hnone
    simp [dispatch, hnone]
  · intro h hsome
    refine ⟨?_, ?_, ?_⟩
    · simp [dispatch, hsome]
    · simp [dispatch, hsome, lookupCb_removeCb]
    · intro env2 hid
      simp [dispatch, hsome, hid, lookupCb_removeCb]

/-- Witness for C6: the empty registry drops an envelope; a registry with
one entry for identifier 0 invokes handler 7 with the message, and a
second envelope for identifier 0 is dropped. -/
theorem claim_C6_witness :
    dispatch [] ⟨0, ⟨"A", none, none⟩⟩ = ([], none) ∧
    (dispatch [(0, 7)] ⟨0, ⟨"A", none, none⟩⟩).2 = some (7, ⟨"A", none, none⟩) ∧
    (dispatch (dispatch [(0, 7)] ⟨0, ⟨"A", none, none⟩⟩).1
        ⟨0, ⟨"B", none, some 3⟩⟩).2 = none :=
  ⟨(claim_C6_dispatch [] ⟨0, ⟨"A", none, none⟩⟩).1 rfl,
   ((claim_C6_dispatch [(0, 7)] ⟨0, ⟨"A", none, none⟩⟩).2 7 rfl).1,
   ((claim_C6_dispatch [(0, 7)] ⟨0, ⟨"A", none, none⟩⟩).2 7 rfl).2.2
     ⟨0, ⟨"B", none, some 3⟩⟩ rfl⟩

end NodecaIO
